import Mathlib

/-!
Verification of the geofence evaluator and alarm-state transitions of the
GpsAlert application (`src/app/index.js`).

The JavaScript source is shallowly embedded: coordinates, radii and
timestamps are real numbers, an alarm record is a structure, and the
`checkAlarms` routine is a pure function from a position, an evaluation
timestamp and a store snapshot to an updated snapshot, a boolean return
value and the list of trigger events it fires.  Storage failures
(`AsyncStorage.getItem` / `setItem` throwing, caught by the `try/catch`
in `checkAlarms`) are modelled by two boolean fault flags.
-/

namespace GpsAlert

open Real

/-- A geographic position, the `{latitude, longitude}` pair that
`checkAlarms` receives as `currentLoc`. -/
structure Coord where
  latitude : ℝ
  longitude : ℝ

/-- One persisted alarm record, as created by `saveAlarm` in
`src/app/index.js`.  `snoozedUntil = 0` models the JS falsy default
(field absent or explicitly `0`). -/
structure Alarm where
  id : String
  name : String
  latitude : ℝ
  longitude : ℝ
  radius : ℝ
  active : Bool
  triggered : Bool
  snoozedUntil : ℝ

/-- A trigger event: the data the triggered branch of `checkAlarms`
hands to the alert sink (`data: { alarmId: alarm.id }` together with the
alarm's `name` in the notification body). -/
structure TriggerEvent where
  alarmId : String
  name : String
deriving DecidableEq

/-- JavaScript's `Math.atan2 y x` on real inputs (signed zeros and NaN
are outside the real-number model). -/
noncomputable def atan2 (y x : ℝ) : ℝ :=
  if 0 < x then Real.arctan (y / x)
  else if x < 0 then
    (if 0 ≤ y then Real.arctan (y / x) + Real.pi else Real.arctan (y / x) - Real.pi)
  else if 0 < y then Real.pi / 2
  else if y < 0 then -(Real.pi / 2)
  else 0

/-- The haversine `a` term of `getDistance` in `src/app/index.js`
(lines 36-40): `sin(dphi/2)^2 + cos(phi1) * cos(phi2) * sin(dlambda/2)^2`
with all four inputs in degrees. -/
noncomputable def haverTerm (lat1 lon1 lat2 lon2 : ℝ) : ℝ :=
  Real.sin ((lat2 - lat1) * (Real.pi / 180) / 2) * Real.sin ((lat2 - lat1) * (Real.pi / 180) / 2) +
    Real.cos (lat1 * (Real.pi / 180)) * Real.cos (lat2 * (Real.pi / 180)) *
      Real.sin ((lon2 - lon1) * (Real.pi / 180) / 2) * Real.sin ((lon2 - lon1) * (Real.pi / 180) / 2)

/-- `getDistance` of `src/app/index.js` (lines 34-43): haversine
great-circle distance on a sphere of radius 6,371,000 m, via
`c = 2 * atan2(sqrt a, sqrt (1 - a))` and `R * c`. -/
noncomputable def getDistance (lat1 lon1 lat2 lon2 : ℝ) : ℝ :=
  6371000 *
    (2 * atan2 (Real.sqrt (haverTerm lat1 lon1 lat2 lon2))
      (Real.sqrt (1 - haverTerm lat1 lon1 lat2 lon2)))

/-- The body of the `savedAlarms.map` callback in `checkAlarms`
(`src/app/index.js` lines 86-122): given the current location and the
evaluation timestamp `now = Date.now()`, produce the updated record
together with the list of trigger events fired for this record (empty
or a singleton). -/
noncomputable def checkOneAlarm (loc : Coord) (now : ℝ) (alarm : Alarm) :
    Alarm × List TriggerEvent :=
  if alarm.active = false then (alarm, [])
  else if alarm.triggered = true then (alarm, [])
  else if alarm.snoozedUntil ≠ 0 ∧ now < alarm.snoozedUntil then (alarm, [])
  else if getDistance loc.latitude loc.longitude alarm.latitude alarm.longitude ≤ alarm.radius then
    ({ alarm with triggered := true }, [⟨alarm.id, alarm.name⟩])
  else (alarm, [])

/-- The pure core of one `checkAlarms` call: the `updatedAlarms` list
produced by the map, and the trigger events fired during the map, in
list order. -/
noncomputable def checkAlarmsRun (loc : Coord) (now : ℝ) (alarms : List Alarm) :
    List Alarm × List TriggerEvent :=
  (alarms.map fun alarm => (checkOneAlarm loc now alarm).1,
   (alarms.map fun alarm => (checkOneAlarm loc now alarm).2).flatten)

/-- The full `checkAlarms` (`src/app/index.js` lines 79-130) over a
store snapshot.  `store = none` models an absent `STORAGE_KEY` (parsed
as `[]`); `loadFails` / `saveFails` model `getItem` / `setItem`
throwing, which the surrounding `try/catch` swallows, leaving the store
as it was and returning `false`.  The result is
`(new store contents, return value, events fired)`.  `alarmsUpdated` is
set by the map exactly when some record triggers, i.e. exactly when the
event list is nonempty. -/
noncomputable def checkAlarms (loc : Coord) (now : ℝ) (store : Option (List Alarm))
    (loadFails saveFails : Bool) : Option (List Alarm) × Bool × List TriggerEvent :=
  if loadFails = true then (store, false, [])
  else if (!(checkAlarmsRun loc now (store.getD [])).2.isEmpty) = true then
    if saveFails = true then (store, false, (checkAlarmsRun loc now (store.getD [])).2)
    else (some (checkAlarmsRun loc now (store.getD [])).1, true,
      (checkAlarmsRun loc now (store.getD [])).2)
  else (store, false, (checkAlarmsRun loc now (store.getD [])).2)

/-- `snoozeAlarm` (`src/app/index.js` lines 199-212), the list
transformation it persists: clear `triggered`, force `active`, set
`snoozedUntil` five minutes (300,000 ms) past `now`. -/
def snoozeAlarm (now : ℝ) (id : String) (alarms : List Alarm) : List Alarm :=
  alarms.map fun a =>
    if a.id = id then { a with triggered := false, active := true, snoozedUntil := now + 300000 }
    else a

/-- `stopAlarmAndRefresh` (`src/app/index.js` lines 214-227): turn the
alarm off completely. -/
def stopAlarmAndRefresh (id : String) (alarms : List Alarm) : List Alarm :=
  alarms.map fun a =>
    if a.id = id then { a with triggered := false, active := false } else a

/-- `toggleAlarm` (`src/app/index.js` lines 382-393): flip `active`,
clear `triggered`. -/
def toggleAlarm (id : String) (alarms : List Alarm) : List Alarm :=
  alarms.map fun a =>
    if a.id = id then { a with active := !a.active, triggered := false } else a

/-- The `editingId` branch of `saveAlarm` (`src/app/index.js` line 345):
overwrite name and radius of the edited record and force
`active := true, triggered := false`. -/
def saveAlarmEdit (editingId : String) (tempName : String) (tempRadius : ℝ)
    (alarms : List Alarm) : List Alarm :=
  alarms.map fun a =>
    if a.id = editingId then
      { a with name := tempName, radius := tempRadius, active := true, triggered := false }
    else a

/-! ### Basic facts about the distance function -/

theorem atan2_pos_x (y x : ℝ) (hx : 0 < x) : atan2 y x = Real.arctan (y / x) := by
  simp [atan2, hx]

theorem haverTerm_self (lat lon : ℝ) : haverTerm lat lon lat lon = 0 := by
  simp [haverTerm]

/-- Identical coordinates are at haversine distance zero. -/
theorem getDistance_self (lat lon : ℝ) : getDistance lat lon lat lon = 0 := by
  rw [getDistance, haverTerm_self]
  rw [Real.sqrt_zero, show (1 : ℝ) - 0 = 1 by ring, Real.sqrt_one]
  rw [atan2_pos_x 0 1 one_pos]
  simp

theorem atan2_nonneg (y x : ℝ) (hy : 0 ≤ y) : 0 ≤ atan2 y x := by
  rcases lt_trichotomy 0 x with hx | hx | hx
  · rw [atan2_pos_x y x hx]
    calc (0 : ℝ) = Real.arctan 0 := Real.arctan_zero.symm
      _ ≤ Real.arctan (y / x) :=
        Real.arctan_strictMono.monotone (div_nonneg hy (le_of_lt hx))
  · subst hx
    unfold atan2
    rw [if_neg (lt_irrefl 0), if_neg (lt_irrefl 0)]
    rcases eq_or_lt_of_le hy with hy0 | hy0
    · rw [if_neg (by rw [← hy0]; exact lt_irrefl 0), if_neg (by rw [← hy0]; exact lt_irrefl 0)]
    · rw [if_pos hy0]
      linarith [Real.pi_pos]
  · unfold atan2
    rw [if_neg (not_lt.mpr hx.le), if_pos hx, if_pos hy]
    linarith [Real.neg_pi_div_two_lt_arctan (y / x), Real.pi_pos]

/-- The haversine formula returns a nonnegative distance on all real
inputs. -/
theorem getDistance_nonneg (lat1 lon1 lat2 lon2 : ℝ) :
    0 ≤ getDistance lat1 lon1 lat2 lon2 := by
  rw [getDistance]
  have h := atan2_nonneg (Real.sqrt (haverTerm lat1 lon1 lat2 lon2))
    (Real.sqrt (1 - haverTerm lat1 lon1 lat2 lon2)) (Real.sqrt_nonneg _)
  nlinarith

/-- The haversine distance is symmetric in its two coordinate pairs. -/
theorem getDistance_comm (lat1 lon1 lat2 lon2 : ℝ) :
    getDistance lat1 lon1 lat2 lon2 = getDistance lat2 lon2 lat1 lon1 := by
  have h : haverTerm lat1 lon1 lat2 lon2 = haverTerm lat2 lon2 lat1 lon1 := by
    simp only [haverTerm]
    have h1 : (lat1 - lat2) * (Real.pi / 180) / 2 =
        -((lat2 - lat1) * (Real.pi / 180) / 2) := by ring
    have h2 : (lon1 - lon2) * (Real.pi / 180) / 2 =
        -((lon2 - lon1) * (Real.pi / 180) / 2) := by ring
    rw [h1, h2, Real.sin_neg, Real.sin_neg]
    ring
  rw [getDistance, getDistance, h]

/-- Moving `dm` meters due north along a meridian (latitude offset
`dm / R` radians, i.e. `dm / R * (180 / pi)` degrees) is at haversine
distance exactly `dm`, provided `dm / (2R) < pi / 2`. -/
theorem getDistance_meridian (lat lon dm : ℝ) (h0 : 0 ≤ dm)
    (h1 : dm / (2 * 6371000) < Real.pi / 2) :
    getDistance lat lon (lat + dm / 6371000 * (180 / Real.pi)) lon = dm := by
  have hpi : Real.pi ≠ 0 := Real.pi_ne_zero
  set t := dm / (2 * 6371000) with ht
  have ht0 : 0 ≤ t := by positivity
  have harg : (lat + dm / 6371000 * (180 / Real.pi) - lat) * (Real.pi / 180) / 2 = t := by
    rw [ht]
    field_simp
    ring
  have htpi : t ≤ Real.pi := by linarith [Real.pi_pos]
  have hsin : 0 ≤ Real.sin t := Real.sin_nonneg_of_nonneg_of_le_pi ht0 htpi
  have hcos : 0 < Real.cos t :=
    Real.cos_pos_of_mem_Ioo ⟨by linarith [Real.pi_pos], h1⟩
  have hlon : (lon - lon) * (Real.pi / 180) / 2 = 0 := by ring
  have hterm : haverTerm lat lon (lat + dm / 6371000 * (180 / Real.pi)) lon =
      Real.sin t * Real.sin t := by
    simp only [haverTerm, harg, hlon, Real.sin_zero, mul_zero, zero_mul, add_zero]
  have h1t : 1 - Real.sin t * Real.sin t = Real.cos t * Real.cos t := by
    have hpyth := Real.sin_sq_add_cos_sq t
    nlinarith [hpyth]
  rw [getDistance, hterm, Real.sqrt_mul_self hsin, h1t,
    Real.sqrt_mul_self (le_of_lt hcos), atan2_pos_x _ _ hcos,
    ← Real.tan_eq_sin_div_cos, Real.arctan_tan (by linarith [Real.pi_pos]) h1, ht]
  field_simp
  ring

/-! ### Per-record case analysis of the evaluator -/

/-- Each pass of the `savedAlarms.map` callback either returns the
record unchanged with no event, or flips `triggered` from `false` to
`true` and fires exactly one event carrying the record's id and name. -/
theorem checkOneAlarm_cases (loc : Coord) (now : ℝ) (a : Alarm) :
    checkOneAlarm loc now a = (a, []) ∨
      (a.triggered = false ∧
        checkOneAlarm loc now a = ({ a with triggered := true }, [⟨a.id, a.name⟩])) := by
  unfold checkOneAlarm
  split_ifs with h1 h2 h3 h4
  · exact Or.inl rfl
  · exact Or.inl rfl
  · exact Or.inl rfl
  · exact Or.inr ⟨by simpa using h2, rfl⟩
  · exact Or.inl rfl

theorem checkOneAlarm_inactive (loc : Coord) (now : ℝ) (a : Alarm)
    (h : a.active = false) : checkOneAlarm loc now a = (a, []) := by
  unfold checkOneAlarm
  rw [if_pos h]

theorem checkOneAlarm_triggered (loc : Coord) (now : ℝ) (a : Alarm)
    (h : a.triggered = true) : checkOneAlarm loc now a = (a, []) := by
  unfold checkOneAlarm
  rw [h]
  simp

theorem checkOneAlarm_id (loc : Coord) (now : ℝ) (a : Alarm) :
    (checkOneAlarm loc now a).1.id = a.id := by
  rcases checkOneAlarm_cases loc now a with h | ⟨-, h⟩ <;> rw [h]

/-- On an armed record (active, untriggered, unsnoozed) the evaluator
reduces to the bare distance comparison of line 96 of the source. -/
theorem checkOneAlarm_armed (loc : Coord) (now : ℝ) (a : Alarm)
    (hact : a.active = true) (htr : a.triggered = false)
    (hsn : ¬(a.snoozedUntil ≠ 0 ∧ now < a.snoozedUntil)) :
    checkOneAlarm loc now a =
      if getDistance loc.latitude loc.longitude a.latitude a.longitude ≤ a.radius then
        ({ a with triggered := true }, [⟨a.id, a.name⟩])
      else (a, []) := by
  unfold checkOneAlarm
  rw [if_neg (by simp [hact]), if_neg (by simp [htr]), if_neg hsn]

theorem checkAlarmsRun_nil (loc : Coord) (now : ℝ) : checkAlarmsRun loc now [] = ([], []) := rfl

theorem checkAlarmsRun_cons (loc : Coord) (now : ℝ) (a : Alarm) (rest : List Alarm) :
    checkAlarmsRun loc now (a :: rest) =
      ((checkOneAlarm loc now a).1 :: (checkAlarmsRun loc now rest).1,
       (checkOneAlarm loc now a).2 ++ (checkAlarmsRun loc now rest).2) := by
  simp [checkAlarmsRun]

/-- A record contributes one event exactly when its `triggered` flag
flips from `false` to `true` in this pass. -/
theorem checkOneAlarm_event_length (loc : Coord) (now : ℝ) (a : Alarm) :
    (checkOneAlarm loc now a).2.length =
      if !a.triggered && ((checkOneAlarm loc now a).1).triggered then 1 else 0 := by
  rcases checkOneAlarm_cases loc now a with h | ⟨htr, h⟩
  · rw [h]
    cases hb : a.triggered <;> simp [hb]
  · rw [h]
    simp [htr]

theorem events_length_eq (loc : Coord) (now : ℝ) (alarms : List Alarm) :
    (checkAlarmsRun loc now alarms).2.length =
      ((alarms.zip (checkAlarmsRun loc now alarms).1).countP
        fun p => !p.1.triggered && p.2.triggered) := by
  induction alarms with
  | nil => rfl
  | cons a rest ih =>
    rw [checkAlarmsRun_cons]
    show ((checkOneAlarm loc now a).2 ++ (checkAlarmsRun loc now rest).2).length =
      List.countP _ ((a, (checkOneAlarm loc now a).1) :: rest.zip (checkAlarmsRun loc now rest).1)
    rw [List.length_append, checkOneAlarm_event_length, List.countP_cons, ih]
    simp [Nat.add_comm]

theorem events_ids (loc : Coord) (now : ℝ) (alarms : List Alarm) :
    ∀ e ∈ (checkAlarmsRun loc now alarms).2, ∃ a ∈ alarms, e.alarmId = a.id := by
  induction alarms with
  | nil =>
    intro e he
    simp [checkAlarmsRun_nil] at he
  | cons a rest ih =>
    intro e he
    rw [checkAlarmsRun_cons] at he
    rcases List.mem_append.mp he with he | he
    · rcases checkOneAlarm_cases loc now a with h | ⟨htr, h⟩
      · rw [h] at he
        simp at he
      · rw [h] at he
        simp at he
        exact ⟨a, List.mem_cons_self a rest, by rw [he]⟩
    · rcases ih e he with ⟨b, hb, hid⟩
      exact ⟨b, List.mem_cons_of_mem a hb, hid⟩

/-! ### Concrete records used to instantiate the theorems -/

/-- The E2E zone of the spec: centered on (28.6139, 77.2090), radius
500 m, armed. -/
def zoneA : Alarm :=
  { id := "a", name := "Home", latitude := 28.6139, longitude := 77.2090,
    radius := 500, active := true, triggered := false, snoozedUntil := 0 }

/-- A position exactly at `zoneA`'s center. -/
def locC : Coord := { latitude := 28.6139, longitude := 77.2090 }

/-- A position exactly 400 m due north of `zoneA`'s center. -/
noncomputable def loc400 : Coord :=
  { latitude := 28.6139 + 400 / 6371000 * (180 / Real.pi), longitude := 77.2090 }

/-- A position exactly 600 m due north of `zoneA`'s center. -/
noncomputable def loc600 : Coord :=
  { latitude := 28.6139 + 600 / 6371000 * (180 / Real.pi), longitude := 77.2090 }

theorem dist_loc400 :
    getDistance loc400.latitude loc400.longitude zoneA.latitude zoneA.longitude = 400 := by
  rw [show loc400.latitude = 28.6139 + 400 / 6371000 * (180 / Real.pi) from rfl]
  rw [show loc400.longitude = (77.2090 : ℝ) from rfl]
  rw [show zoneA.latitude = (28.6139 : ℝ) from rfl, show zoneA.longitude = (77.2090 : ℝ) from rfl]
  rw [← getDistance_comm]
  refine getDistance_meridian 28.6139 77.2090 400 (by norm_num) ?_
  have h : (400 : ℝ) / (2 * 6371000) < 3 / 2 := by norm_num
  linarith [Real.pi_gt_three]

theorem dist_loc600 :
    getDistance loc600.latitude loc600.longitude zoneA.latitude zoneA.longitude = 600 := by
  rw [show loc600.latitude = 28.6139 + 600 / 6371000 * (180 / Real.pi) from rfl]
  rw [show loc600.longitude = (77.2090 : ℝ) from rfl]
  rw [show zoneA.latitude = (28.6139 : ℝ) from rfl, show zoneA.longitude = (77.2090 : ℝ) from rfl]
  rw [← getDistance_comm]
  refine getDistance_meridian 28.6139 77.2090 600 (by norm_num) ?_
  have h : (600 : ℝ) / (2 * 6371000) < 3 / 2 := by norm_num
  linarith [Real.pi_gt_three]

/-- Evaluating `zoneA` at its own center triggers it. -/
theorem checkOneAlarm_zoneA_center (now : ℝ) :
    checkOneAlarm locC now zoneA = ({ zoneA with triggered := true }, [⟨"a", "Home"⟩]) := by
  simp only [checkOneAlarm, zoneA, locC]
  norm_num [getDistance_self]

/-- An armed copy of `zoneA` that is already ringing. -/
def zoneT : Alarm := { zoneA with triggered := true }

/-- A switched-off copy of `zoneA`. -/
def zoneOff : Alarm := { zoneA with active := false }

/-- A copy of `zoneA` snoozed until timestamp 1000. -/
def zoneS : Alarm := { zoneA with snoozedUntil := 1000 }

/-! ### Claim theorems -/

/-- C1: for a zone that is active, untriggered and unsnoozed, one
evaluator pass flips `triggered` to `true` and fires exactly one event
carrying the zone's id and name if and only if the haversine distance
(spherical Earth, radius 6,371,000 m) from the current position to the
zone's center is at most the zone's radius; on trigger `active` is
retained as `true`, and a zone farther away than its radius is returned
unchanged. -/
theorem trigger_iff_within_radius (loc : Coord) (now : ℝ) (a : Alarm)
    (hact : a.active = true) (htr : a.triggered = false)
    (hsn : ¬(a.snoozedUntil ≠ 0 ∧ now < a.snoozedUntil)) :
    checkOneAlarm loc now a =
      (if getDistance loc.latitude loc.longitude a.latitude a.longitude ≤ a.radius then
        ({ a with triggered := true }, [⟨a.id, a.name⟩])
      else (a, [])) ∧
    ((checkOneAlarm loc now a).1.triggered = true ↔
      getDistance loc.latitude loc.longitude a.latitude a.longitude ≤ a.radius) ∧
    (checkOneAlarm loc now a).1.active = true := by
  have heq := checkOneAlarm_armed loc now a hact htr hsn
  refine ⟨heq, ?_, ?_⟩
  · rw [heq]
    split_ifs with hd
    · simp [hd]
    · simp [htr, hd]
  · rw [heq]
    split_ifs
    · exact hact
    · exact hact

theorem trigger_iff_within_radius_witness :
    checkOneAlarm locC 0 zoneA = ({ zoneA with triggered := true }, [⟨"a", "Home"⟩]) ∧
    checkOneAlarm loc600 0 zoneA = (zoneA, []) := by
  have h1 := trigger_iff_within_radius locC 0 zoneA rfl rfl (by simp [zoneA])
  have h2 := trigger_iff_within_radius loc600 0 zoneA rfl rfl (by simp [zoneA])
  constructor
  · have hd : getDistance locC.latitude locC.longitude zoneA.latitude zoneA.longitude ≤
        zoneA.radius := by
      rw [show locC.latitude = zoneA.latitude from rfl,
        show locC.longitude = zoneA.longitude from rfl, getDistance_self]
      norm_num [zoneA]
    rw [h1.1, if_pos hd]
    rfl
  · have hd : ¬(getDistance loc600.latitude loc600.longitude zoneA.latitude zoneA.longitude ≤
        zoneA.radius) := by
      rw [dist_loc600]
      norm_num [zoneA]
    rw [h2.1, if_neg hd]

/-- C2: a zone whose `triggered` flag is already `true` is returned
unchanged with no event by every evaluator pass, for any position and
any number of repeated calls; the evaluator alone never clears
`triggered`. -/
theorem triggered_zone_stable (loc : Coord) (now : ℝ) (a : Alarm)
    (h : a.triggered = true) :
    checkOneAlarm loc now a = (a, []) ∧
    (∀ samples : List (Coord × ℝ),
      samples.foldl (fun b p => (checkOneAlarm p.1 p.2 b).1) a = a) ∧
    (∀ (alarms : List Alarm) (i : ℕ), alarms[i]? = some a →
      (checkAlarmsRun loc now alarms).1[i]? = some a) := by
  refine ⟨checkOneAlarm_triggered loc now a h, ?_, ?_⟩
  · intro samples
    induction samples with
    | nil => rfl
    | cons p rest ih =>
      rw [List.foldl_cons, checkOneAlarm_triggered p.1 p.2 a h]
      exact ih
  · intro alarms i hi
    show (alarms.map fun b => (checkOneAlarm loc now b).1)[i]? = some a
    rw [List.getElem?_map, hi]
    simp [checkOneAlarm_triggered loc now a h]

theorem triggered_zone_stable_witness :
    checkOneAlarm locC 0 zoneT = (zoneT, []) ∧
    [((locC : Coord), (0 : ℝ))].foldl (fun b p => (checkOneAlarm p.1 p.2 b).1) zoneT = zoneT := by
  have h := triggered_zone_stable locC 0 zoneT rfl
  exact ⟨h.1, h.2.1 [(locC, 0)]⟩

/-- C4: a zone with `active = false` is returned unchanged with no
event by every evaluator pass, for any position and any number of
evaluation cycles; its `triggered` flag is never set. -/
theorem inactive_zone_excluded (loc : Coord) (now : ℝ) (a : Alarm)
    (h : a.active = false) :
    checkOneAlarm loc now a = (a, []) ∧
    (∀ samples : List (Coord × ℝ),
      samples.foldl (fun b p => (checkOneAlarm p.1 p.2 b).1) a = a) ∧
    (∀ (alarms : List Alarm) (i : ℕ), alarms[i]? = some a →
      (checkAlarmsRun loc now alarms).1[i]? = some a) := by
  refine ⟨checkOneAlarm_inactive loc now a h, ?_, ?_⟩
  · intro samples
    induction samples with
    | nil => rfl
    | cons p rest ih =>
      rw [List.foldl_cons, checkOneAlarm_inactive p.1 p.2 a h]
      exact ih
  · intro alarms i hi
    show (alarms.map fun b => (checkOneAlarm loc now b).1)[i]? = some a
    rw [List.getElem?_map, hi]
    simp [checkOneAlarm_inactive loc now a h]

theorem inactive_zone_excluded_witness :
    checkOneAlarm locC 0 zoneOff = (zoneOff, []) ∧
    [((locC : Coord), (0 : ℝ))].foldl (fun b p => (checkOneAlarm p.1 p.2 b).1) zoneOff = zoneOff := by
  have h := inactive_zone_excluded locC 0 zoneOff rfl
  exact ⟨h.1, h.2.1 [(locC, 0)]⟩

/-- C5: a future `snoozedUntil` suppresses evaluation (the zone is
returned unchanged, no event, `active` and `triggered` untouched, even
within radius); once the evaluation timestamp reaches `snoozedUntil`,
or `snoozedUntil` is 0/absent, the same in-radius position triggers the
zone. -/
theorem snooze_suppresses_until_elapsed (loc : Coord) (now : ℝ) (a : Alarm)
    (hact : a.active = true) (htr : a.triggered = false) :
    (a.snoozedUntil ≠ 0 → now < a.snoozedUntil → checkOneAlarm loc now a = (a, [])) ∧
    ((a.snoozedUntil = 0 ∨ a.snoozedUntil ≤ now) →
      getDistance loc.latitude loc.longitude a.latitude a.longitude ≤ a.radius →
      checkOneAlarm loc now a = ({ a with triggered := true }, [⟨a.id, a.name⟩])) := by
  constructor
  · intro hs hlt
    unfold checkOneAlarm
    rw [if_neg (by simp [hact]), if_neg (by simp [htr]), if_pos ⟨hs, hlt⟩]
  · intro hs hd
    have hns : ¬(a.snoozedUntil ≠ 0 ∧ now < a.snoozedUntil) := by
      rcases hs with h0 | hle
      · rintro ⟨hne, -⟩; exact hne h0
      · rintro ⟨-, hlt⟩; exact absurd hle (not_le.mpr hlt)
    unfold checkOneAlarm
    rw [if_neg (by simp [hact]), if_neg (by simp [htr]), if_neg hns, if_pos hd]

theorem snooze_suppresses_until_elapsed_witness :
    checkOneAlarm locC 500 zoneS = (zoneS, []) ∧
    checkOneAlarm locC 1000 zoneS = ({ zoneS with triggered := true }, [⟨"a", "Home"⟩]) := by
  have h1 := snooze_suppresses_until_elapsed locC 500 zoneS rfl rfl
  have h2 := snooze_suppresses_until_elapsed locC 1000 zoneS rfl rfl
  constructor
  · exact h1.1 (by norm_num [zoneS, zoneA]) (by norm_num [zoneS, zoneA])
  · refine h2.2 (Or.inr (by norm_num [zoneS, zoneA])) ?_
    rw [show locC.latitude = zoneS.latitude from rfl,
      show locC.longitude = zoneS.longitude from rfl, getDistance_self]
    norm_num [zoneS, zoneA]

/-- Concrete two-record evaluation used by the instantiations below:
the armed `zoneA` triggers at its center, the already-ringing `zoneT`
is skipped. -/
theorem checkAlarmsRun_pair :
    checkAlarmsRun locC 0 [zoneA, zoneT] =
      ([{ zoneA with triggered := true }, zoneT], [⟨"a", "Home"⟩]) := by
  rw [checkAlarmsRun_cons, checkAlarmsRun_cons, checkAlarmsRun_nil,
    checkOneAlarm_zoneA_center 0, checkOneAlarm_triggered locC 0 zoneT rfl]
  rfl

/-- C6: every evaluator call returns exactly as many events as there
are zones whose `triggered` flag flipped from `false` to `true` in that
call, and every returned event's id is the id of some zone of the
input. -/
theorem event_count_matches_flips (loc : Coord) (now : ℝ) (alarms : List Alarm) :
    (checkAlarmsRun loc now alarms).2.length =
      ((alarms.zip (checkAlarmsRun loc now alarms).1).countP
        fun p => !p.1.triggered && p.2.triggered) ∧
    ∀ e ∈ (checkAlarmsRun loc now alarms).2, ∃ a ∈ alarms, e.alarmId = a.id :=
  ⟨events_length_eq loc now alarms, events_ids loc now alarms⟩

theorem event_count_matches_flips_witness :
    (([zoneA, zoneT].zip (checkAlarmsRun locC 0 [zoneA, zoneT]).1).countP
      fun p => !p.1.triggered && p.2.triggered) = 1 ∧
    ∃ a ∈ ([zoneA, zoneT] : List Alarm), (⟨"a", "Home"⟩ : TriggerEvent).alarmId = a.id := by
  have h := event_count_matches_flips locC 0 [zoneA, zoneT]
  constructor
  · have h1 := h.1
    rw [checkAlarmsRun_pair] at h1 ⊢
    exact h1.symm
  · exact h.2 ⟨"a", "Home"⟩ (by rw [checkAlarmsRun_pair]; simp)

/-- C7: the output zone list of a call has the same length and
per-index ids as the input; a zone not newly triggered in the call is
returned as the input record itself (the shallow-embedding rendering of
reference identity: the map callback returns its argument unchanged);
with the store healthy, `checkAlarms` writes the updated list if and
only if some zone newly triggered, and its return value is `true`
exactly in that case. -/
theorem evaluator_frame (loc : Coord) (now : ℝ) (alarms : List Alarm) :
    (checkAlarmsRun loc now alarms).1.length = alarms.length ∧
    (∀ (i : ℕ) (a : Alarm), alarms[i]? = some a →
      ∃ b, (checkAlarmsRun loc now alarms).1[i]? = some b ∧ b.id = a.id) ∧
    (∀ (i : ℕ) (a : Alarm), alarms[i]? = some a →
      (checkAlarmsRun loc now alarms).1[i]? = some a ∨
        (a.triggered = false ∧
          (checkAlarmsRun loc now alarms).1[i]? = some { a with triggered := true })) ∧
    (checkAlarms loc now (some alarms) false false =
      if (checkAlarmsRun loc now alarms).2.isEmpty then
        (some alarms, false, (checkAlarmsRun loc now alarms).2)
      else (some (checkAlarmsRun loc now alarms).1, true, (checkAlarmsRun loc now alarms).2)) ∧
    ((checkAlarms loc now (some alarms) false false).2.1 = true ↔
      ∃ p ∈ alarms.zip (checkAlarmsRun loc now alarms).1,
        p.1.triggered = false ∧ p.2.triggered = true) := by
  have hmap : ∀ (i : ℕ) (a : Alarm), alarms[i]? = some a →
      (checkAlarmsRun loc now alarms).1[i]? = some ((checkOneAlarm loc now a).1) := by
    intro i a hi
    show (alarms.map fun b => (checkOneAlarm loc now b).1)[i]? = _
    rw [List.getElem?_map, hi]
    rfl
  have hstore : checkAlarms loc now (some alarms) false false =
      if (checkAlarmsRun loc now alarms).2.isEmpty then
        (some alarms, false, (checkAlarmsRun loc now alarms).2)
      else (some (checkAlarmsRun loc now alarms).1, true, (checkAlarmsRun loc now alarms).2) := by
    unfold checkAlarms
    rw [if_neg (by simp)]
    simp only [Option.getD_some]
    by_cases hev : (checkAlarmsRun loc now alarms).2.isEmpty
    · rw [if_neg (by simp [hev]), if_pos hev]
    · have hev' : (checkAlarmsRun loc now alarms).2.isEmpty = false := by
        revert hev
        cases (checkAlarmsRun loc now alarms).2.isEmpty <;> simp
      rw [if_pos (by simp [hev']), if_neg (by simp), if_neg (by simp [hev'])]
  refine ⟨by simp [checkAlarmsRun], ?_, ?_, hstore, ?_⟩
  · intro i a hi
    exact ⟨(checkOneAlarm loc now a).1, hmap i a hi, checkOneAlarm_id loc now a⟩
  · intro i a hi
    rcases checkOneAlarm_cases loc now a with h | ⟨htr, h⟩
    · left
      rw [hmap i a hi, h]
    · right
      refine ⟨htr, ?_⟩
      rw [hmap i a hi, h]
  · rw [hstore]
    constructor
    · intro htrue
      by_cases hev : (checkAlarmsRun loc now alarms).2.isEmpty
      · rw [if_pos hev] at htrue
        simp at htrue
      · have hne : (checkAlarmsRun loc now alarms).2 ≠ [] := by
          intro h0
          exact hev (by rw [h0]; rfl)
        have hpos : 0 < (checkAlarmsRun loc now alarms).2.length :=
          List.length_pos.mpr hne
        rw [events_length_eq] at hpos
        rcases List.countP_pos_iff.mp hpos with ⟨p, hp, hpred⟩
        refine ⟨p, hp, ?_, ?_⟩
        · cases hb : p.1.triggered
          · rfl
          · rw [hb] at hpred
            simp at hpred
        · cases hb : p.2.triggered
          · rw [hb] at hpred
            simp at hpred
          · rfl
    · rintro ⟨p, hp, h1, h2⟩
      have hpos : 0 < ((alarms.zip (checkAlarmsRun loc now alarms).1).countP
          fun q => !q.1.triggered && q.2.triggered) :=
        List.countP_pos_iff.mpr ⟨p, hp, by simp [h1, h2]⟩
      rw [← events_length_eq] at hpos
      have hev : (checkAlarmsRun loc now alarms).2.isEmpty = false := by
        rcases h0 : (checkAlarmsRun loc now alarms).2 with _ | ⟨e, rest⟩
        · rw [h0] at hpos
          simp at hpos
        · rfl
      rw [if_neg (by simp [hev])]

theorem evaluator_frame_witness :
    (checkAlarmsRun locC 0 [zoneA, zoneT]).1.length = 2 ∧
    (checkAlarmsRun locC 0 [zoneA, zoneT]).1[1]? = some zoneT ∧
    (checkAlarms locC 0 (some [zoneA, zoneT]) false false).2.1 = true := by
  have h := evaluator_frame locC 0 [zoneA, zoneT]
  refine ⟨by rw [h.1]; rfl, ?_, ?_⟩
  · rcases h.2.2.1 1 zoneT rfl with hsame | ⟨hf, -⟩
    · exact hsame
    · exact absurd hf (by simp [zoneT])
  · refine h.2.2.2.2.mpr ⟨(zoneA, { zoneA with triggered := true }), ?_, rfl, rfl⟩
    rw [checkAlarmsRun_pair]
    exact List.mem_cons_self _ _

/-- C8: if loading or saving the persisted collection fails, the cycle
is abandoned: the store contents are untouched and `checkAlarms`
returns `false`.  The model is a total function, reflecting the
`try/catch` of `src/app/index.js` lines 80-128 that keeps any storage
exception from propagating to the position-update loop. -/
theorem store_failure_abandons_cycle (loc : Coord) (now : ℝ) (store : Option (List Alarm))
    (loadFails saveFails : Bool) (h : loadFails = true ∨ saveFails = true) :
    (checkAlarms loc now store loadFails saveFails).1 = store ∧
    (checkAlarms loc now store loadFails saveFails).2.1 = false := by
  rcases h with h | h
  · subst h
    constructor <;> rfl
  · subst h
    cases hl : loadFails
    · unfold checkAlarms
      rw [if_neg (by simp)]
      by_cases hev : (!(checkAlarmsRun loc now (store.getD [])).2.isEmpty) = true
      · rw [if_pos hev, if_pos rfl]
        exact ⟨rfl, rfl⟩
      · rw [if_neg hev]
        exact ⟨rfl, rfl⟩
    · constructor <;> rfl

theorem store_failure_abandons_cycle_witness :
    (checkAlarms locC 0 (some [zoneA]) true false).1 = some [zoneA] ∧
    (checkAlarms locC 0 (some [zoneA]) true false).2.1 = false :=
  store_failure_abandons_cycle locC 0 (some [zoneA]) true false (Or.inl rfl)

/-- C9: identical coordinates are at haversine distance 0, so they
satisfy the trigger comparison; for the zone at (28.6139, 77.2090) with
radius 500 m, a position whose haversine distance is exactly 400 m
triggers it, and one at exactly 600 m leaves it unchanged. -/
theorem distance_spec_points (now : ℝ) :
    (∀ lat lon : ℝ, getDistance lat lon lat lon = 0) ∧
    (∀ loc : Coord,
      getDistance loc.latitude loc.longitude zoneA.latitude zoneA.longitude = 400 →
      checkOneAlarm loc now zoneA = ({ zoneA with triggered := true }, [⟨"a", "Home"⟩])) ∧
    (∀ loc : Coord,
      getDistance loc.latitude loc.longitude zoneA.latitude zoneA.longitude = 600 →
      checkOneAlarm loc now zoneA = (zoneA, [])) := by
  refine ⟨getDistance_self, ?_, ?_⟩
  · intro loc hd
    rw [checkOneAlarm_armed loc now zoneA rfl rfl (by simp [zoneA]), hd,
      if_pos (show (400 : ℝ) ≤ zoneA.radius by norm_num [zoneA])]
    rfl
  · intro loc hd
    rw [checkOneAlarm_armed loc now zoneA rfl rfl (by simp [zoneA]), hd,
      if_neg (show ¬((600 : ℝ) ≤ zoneA.radius) by norm_num [zoneA])]

theorem distance_spec_points_witness :
    getDistance 28.6139 77.2090 28.6139 77.2090 = 0 ∧
    checkOneAlarm loc400 0 zoneA = ({ zoneA with triggered := true }, [⟨"a", "Home"⟩]) ∧
    checkOneAlarm loc600 0 zoneA = (zoneA, []) := by
  have h := distance_spec_points 0
  exact ⟨h.1 28.6139 77.2090, h.2.1 loc400 dist_loc400, h.2.2 loc600 dist_loc600⟩

/-- A record with an out-of-range latitude (999 degrees). -/
def zoneBad : Alarm :=
  { id := "b", name := "Bad", latitude := 999, longitude := 77.2090,
    radius := 500, active := true, triggered := false, snoozedUntil := 0 }

/-- A position at the same malformed coordinates as `zoneBad`. -/
def locBad : Coord := { latitude := 999, longitude := 77.2090 }

/-- A copy of `zoneA` with a negative radius. -/
def zoneNeg : Alarm := { zoneA with radius := -1 }

/-- C3 counterexample: contrary to the claim, the evaluator never
fails with an `InvalidInput` error.  `src/app/index.js` contains no
validation: fed a zone whose latitude is the out-of-range 999 degrees
and a position at the same malformed coordinates, `checkAlarms`
silently computes distance 0 and produces a trigger decision, returning
the zone triggered with an event rather than any error value. -/
theorem invalid_input_counterexample :
    checkOneAlarm locBad 0 zoneBad = ({ zoneBad with triggered := true }, [⟨"b", "Bad"⟩]) := by
  simp only [checkOneAlarm, zoneBad, locBad]
  norm_num [getDistance_self]

/-- C3 amended: the evaluator performs no input validation and has no
failure outcome.  An active, untriggered, unsnoozed zone is always
evaluated by the bare haversine comparison, whatever its coordinates or
radius (out-of-range or not); a zone with negative radius silently
never triggers (distance is nonnegative); and each zone of a call is
evaluated independently of the others, so a malformed zone never
affects the rest of the batch. -/
theorem no_input_validation (loc : Coord) (now : ℝ) (a : Alarm)
    (hact : a.active = true) (htr : a.triggered = false)
    (hsn : ¬(a.snoozedUntil ≠ 0 ∧ now < a.snoozedUntil)) :
    checkOneAlarm loc now a =
      (if getDistance loc.latitude loc.longitude a.latitude a.longitude ≤ a.radius then
        ({ a with triggered := true }, [⟨a.id, a.name⟩])
      else (a, [])) ∧
    (a.radius < 0 → checkOneAlarm loc now a = (a, [])) ∧
    (∀ (alarms : List Alarm) (i : ℕ),
      (checkAlarmsRun loc now alarms).1[i]? =
        (alarms[i]?).map fun b => (checkOneAlarm loc now b).1) := by
  refine ⟨checkOneAlarm_armed loc now a hact htr hsn, ?_, ?_⟩
  · intro hr
    rw [checkOneAlarm_armed loc now a hact htr hsn, if_neg]
    exact not_le.mpr (lt_of_lt_of_le hr (getDistance_nonneg _ _ _ _))
  · intro alarms i
    show (alarms.map fun b => (checkOneAlarm loc now b).1)[i]? = _
    rw [List.getElem?_map]

theorem no_input_validation_witness :
    checkOneAlarm locC 0 zoneNeg = (zoneNeg, []) := by
  have h := no_input_validation locC 0 zoneNeg rfl rfl (by simp [zoneNeg, zoneA])
  exact h.2.1 (by norm_num [zoneNeg, zoneA])

/-- A second record with a distinct id, already ringing. -/
def zoneB : Alarm :=
  { id := "b", name := "Work", latitude := 28.7, longitude := 77.3,
    radius := 300, active := true, triggered := true, snoozedUntil := 0 }

/-- C10: every user-facing mutation of an existing zone leaves the
target with `triggered = false` (snooze, stop, toggle in either
direction, and edit-save, which additionally forces `active = true`),
so no user operation ever sets `triggered`; every zone whose id differs
from the target is returned unchanged by each operation. -/
theorem user_actions_clear_triggered (now : ℝ) (id tempName : String) (tempRadius : ℝ)
    (alarms : List Alarm) :
    (∀ b ∈ snoozeAlarm now id alarms, b.id = id → b.triggered = false) ∧
    (∀ b ∈ stopAlarmAndRefresh id alarms, b.id = id → b.triggered = false) ∧
    (∀ b ∈ toggleAlarm id alarms, b.id = id → b.triggered = false) ∧
    (∀ b ∈ saveAlarmEdit id tempName tempRadius alarms, b.id = id →
      b.triggered = false ∧ b.active = true) ∧
    (∀ (i : ℕ) (a : Alarm), alarms[i]? = some a → a.id ≠ id →
      (snoozeAlarm now id alarms)[i]? = some a ∧
      (stopAlarmAndRefresh id alarms)[i]? = some a ∧
      (toggleAlarm id alarms)[i]? = some a ∧
      (saveAlarmEdit id tempName tempRadius alarms)[i]? = some a) := by
  refine ⟨?_, ?_, ?_, ?_, ?_⟩
  · intro b hb hid
    rcases List.mem_map.mp hb with ⟨a, -, heq⟩
    by_cases h : a.id = id
    · rw [if_pos h] at heq
      rw [← heq]
    · rw [if_neg h] at heq
      rw [← heq] at hid
      exact absurd hid h
  · intro b hb hid
    rcases List.mem_map.mp hb with ⟨a, -, heq⟩
    by_cases h : a.id = id
    · rw [if_pos h] at heq
      rw [← heq]
    · rw [if_neg h] at heq
      rw [← heq] at hid
      exact absurd hid h
  · intro b hb hid
    rcases List.mem_map.mp hb with ⟨a, -, heq⟩
    by_cases h : a.id = id
    · rw [if_pos h] at heq
      rw [← heq]
    · rw [if_neg h] at heq
      rw [← heq] at hid
      exact absurd hid h
  · intro b hb hid
    rcases List.mem_map.mp hb with ⟨a, -, heq⟩
    by_cases h : a.id = id
    · rw [if_pos h] at heq
      rw [← heq]
      exact ⟨rfl, rfl⟩
    · rw [if_neg h] at heq
      rw [← heq] at hid
      exact absurd hid h
  · intro i a hi hne
    refine ⟨?_, ?_, ?_, ?_⟩ <;>
      · simp only [snoozeAlarm, stopAlarmAndRefresh, toggleAlarm, saveAlarmEdit]
        rw [List.getElem?_map, hi]
        simp [if_neg hne]

theorem user_actions_clear_triggered_witness :
    (∀ b ∈ snoozeAlarm 0 "a" [zoneT, zoneB], b.id = "a" → b.triggered = false) ∧
    (toggleAlarm "a" [zoneT, zoneB])[1]? = some zoneB := by
  have h := user_actions_clear_triggered 0 "a" "X" 100 [zoneT, zoneB]
  exact ⟨h.1, (h.2.2.2.2 1 zoneB rfl (by simp [zoneB])).2.2.1⟩

end GpsAlert
